import Mathlib

/-!
Shallow embedding of the moldr repository (manifold_factory.py and
steepest_descent.py) and proofs about its Stiefel-manifold operations and
projected-gradient-descent loop.

Conventions of the embedding:
* numpy 2-D arrays are modelled by `NPArray`: a shape (rows, cols) together
  with an entry function; entries are exact rationals (the claims under
  study are either exact-arithmetic algebraic identities or shape/control
  questions, never rounding questions).
* Python exceptions are modelled by `Except PyErr`; each numpy operation
  that can raise is a function into `Except PyErr NPArray`.
* Exact-real algebraic claims about `StiefelManifold.proj` are stated over
  Mathlib matrices `Matrix (Fin n) (Fin p) ℝ`; for (n, p)-shaped inputs
  every `np.dot` in `proj` is shape-correct, so the typed translation is
  exact there.
-/

open Matrix

/-- Python exception kinds that the embedded code can raise. -/
inductive PyErr where
  | valueError
  | nameError
  | attributeError
  | typeError
  | notImplementedError
  deriving DecidableEq, Repr

/-- Python values that can be stored in an attribute slot relevant to this
code: `None` (set by `Manifold.__init__` on `self.dim`) or a number. -/
inductive PyVal where
  | none
  | int (n : ℤ)
  | float (q : ℚ)
  deriving DecidableEq, Repr

/-- A numpy 2-D array: a shape and an entry function (entries outside the
shape are irrelevant). -/
structure NPArray where
  rows : ℕ
  cols : ℕ
  entry : ℕ → ℕ → ℚ

/-- Broadcasting of one axis, as numpy does it: equal lengths broadcast to
themselves, a length-1 axis stretches to the other, anything else is an
error (`none`). -/
def bcast (a b : ℕ) : Option ℕ :=
  if a = b then some a else if a = 1 then some b else if b = 1 then some a else none

/-- Index into a possibly-stretched axis: a length-1 axis always reads
position 0. -/
def bidx (d i : ℕ) : ℕ := if d = 1 then 0 else i

/-- An elementwise binary numpy operation on two 2-D arrays, with numpy
broadcasting; raises ValueError when the shapes are incompatible. -/
def np_binop (f : ℚ → ℚ → ℚ) (A B : NPArray) : Except PyErr NPArray :=
  match bcast A.rows B.rows, bcast A.cols B.cols with
  | some r, some c =>
      .ok ⟨r, c, fun i j =>
        f (A.entry (bidx A.rows i) (bidx A.cols j)) (B.entry (bidx B.rows i) (bidx B.cols j))⟩
  | _, _ => .error .valueError

/-- numpy `A + B` on 2-D arrays (elementwise, broadcasting). -/
def np_add (A B : NPArray) : Except PyErr NPArray := np_binop (· + ·) A B

/-- numpy `A * B` on 2-D arrays: ELEMENTWISE multiplication with
broadcasting (this is `*` on ndarrays, not matrix multiplication). -/
def np_mul_elemwise (A B : NPArray) : Except PyErr NPArray := np_binop (· * ·) A B

/-- numpy `t * A` for a scalar `t` (scalar broadcasting never fails). -/
def np_scalar_mul (t : ℚ) (A : NPArray) : NPArray :=
  ⟨A.rows, A.cols, fun i j => t * A.entry i j⟩

/-- numpy `np.dot(A, B)` on 2-D arrays: matrix multiplication; raises
ValueError when the inner dimensions disagree. -/
def np_dot (A B : NPArray) : Except PyErr NPArray :=
  if A.cols = B.rows then
    .ok ⟨A.rows, B.cols, fun i j => ∑ k ∈ Finset.range A.cols, A.entry i k * B.entry k j⟩
  else
    .error .valueError

/-- Modelled from the spec: `utils.sign`, imported by manifold_factory.py
from utils.py which is absent from the sources; the spec describes it as
the standard elementwise signum returning −1/0/+1 per input sign. -/
def sign (x : ℚ) : ℚ :=
  if 0 < x then 1 else if x < 0 then -1 else 0

/-- The composite `np.diag(sign(sign(np.diag(R)) + 0.5))` from
`StiefelManifold.retraction`: `np.diag` of a 2-D array extracts its main
diagonal (length `min rows cols`), `sign` and `+ 0.5` act elementwise, and
`np.diag` of the resulting 1-D vector builds the square diagonal matrix. -/
def sign_fix_diag (R : NPArray) : NPArray :=
  ⟨min R.rows R.cols, min R.rows R.cols,
    fun i j => if i = j then sign (sign (R.entry i i) + 1/2) else 0⟩

/-- `Manifold.proj` of the abstract base class: `raise NotImplementedError`. -/
def Manifold.proj (_X : NPArray) : Except PyErr NPArray :=
  .error .notImplementedError

/-- `Manifold.point_on_manifold` of the abstract base class:
`raise NotImplementedError`. -/
def Manifold.point_on_manifold (_X : NPArray) : Except PyErr Bool :=
  .error .notImplementedError

/-- Python attribute read of `self.dim`: an unset slot raises
AttributeError, a set slot yields its value. -/
def getattr_dim (slot : Option PyVal) : Except PyErr PyVal :=
  match slot with
  | some v => .ok v
  | none => .error .attributeError

/-- `Manifold.random_vec`: `return self.proj(npr.randn(self.dim))`.
Evaluation order is Python's: first the attribute read `self.dim`, then
the call `npr.randn(...)` (abstracted as the parameter `randn`, since its
output is random), then the dynamically dispatched `self.proj`
(parameter `projf`). -/
def Manifold.random_vec (randn : PyVal → Except PyErr NPArray)
    (dim_slot : Option PyVal) (projf : NPArray → Except PyErr NPArray) :
    Except PyErr NPArray := do
  let d ← getattr_dim dim_slot
  let v ← randn d
  projf v

/-- The `dim` slot after `Manifold.__init__`: `self.dim = None`. -/
def Manifold.dim_slot : Option PyVal := some .none

/-- The `dim` slot after `GrassmannManifold.__init__`: the initializer only
sets `self.implemented_ = False` and never calls `Manifold.__init__`, so
the `dim` attribute is never created. -/
def GrassmannManifold.dim_slot : Option PyVal := none

/-- `GrassmannManifold.proj`: not overridden, inherited from `Manifold`. -/
def GrassmannManifold.proj : NPArray → Except PyErr NPArray :=
  Manifold.proj

/-- `GrassmannManifold.point_on_manifold`: not overridden, inherited from
`Manifold`. -/
def GrassmannManifold.point_on_manifold : NPArray → Except PyErr Bool :=
  Manifold.point_on_manifold

/-- `GrassmannManifold.random_vec`: the inherited `Manifold.random_vec`
with this object's (absent) `dim` attribute and inherited `proj`. -/
def GrassmannManifold.random_vec (randn : PyVal → Except PyErr NPArray) :
    Except PyErr NPArray :=
  Manifold.random_vec randn GrassmannManifold.dim_slot GrassmannManifold.proj

/-- `StiefelManifold.__init__`: `self.dim = n*p - 0.5*(p*(p+1))`, computed
exactly (Python evaluates it in double precision, exact for the small
integers at issue). -/
def StiefelManifold.dim (n p : ℕ) : ℚ :=
  n * p - (1/2) * (p * (p + 1))

/-- `StiefelManifold.__init__`: `self.typical_distance = np.sqrt(p)`. -/
noncomputable def StiefelManifold.typical_distance (p : ℕ) : ℝ :=
  Real.sqrt p

/-- `StiefelManifold.inner`: `return np.dot(d1, d2)` — for the 2-D arrays
tangent vectors are, this is matrix multiplication, not a flattened dot
product. -/
def StiefelManifold.inner (d1 d2 : NPArray) : Except PyErr NPArray :=
  np_dot d1 d2

/-- `StiefelManifold.norm`: `return np.norm(d)`. The numpy module has no
attribute `norm` (the function lives at `np.linalg.norm`), so the
attribute lookup `np.norm` raises AttributeError before any computation. -/
def StiefelManifold.norm (_d : NPArray) : Except PyErr ℚ :=
  .error .attributeError

/-- `StiefelManifold.point_on_manifold`:
`if X.shape == (self.n, self.p) and np.allclose(X.T.dot(X), np.eye(p)):`.
The shape test is evaluated first; when it fails, `and` short-circuits and
the function returns False. When it succeeds, `np.eye(p)` is evaluated,
and `p` is an undefined name there (the attribute is `self.p`; no global
`p` exists in the module), so Python raises NameError. -/
def StiefelManifold.point_on_manifold (n p : ℕ) (X : NPArray) : Except PyErr Bool :=
  if X.rows = n ∧ X.cols = p then .error .nameError else .ok false

/-- `StiefelManifold.retraction`:
`Y = X + t*U; Q, R = np.linalg.qr(Y); return Q * np.diag(sign(sign(np.diag(R)) + 0.5))`.
`np.linalg.qr` is a library routine whose exact output is LAPACK's; it is
abstracted as the parameter `qr` (its reduced-mode shape contract, Q of
shape (m, min m k) and R of shape (min m k, k) for an (m, k) input, is a
hypothesis of the theorems). The final `*` is ndarray elementwise
multiplication with broadcasting, exactly as written in the source. -/
def StiefelManifold.retraction (qr : NPArray → NPArray × NPArray)
    (X U : NPArray) (t : ℚ) : Except PyErr NPArray :=
  match np_add X (np_scalar_mul t U) with
  | .error e => .error e
  | .ok Y =>
      let QR := qr Y
      np_mul_elemwise QR.1 (sign_fix_diag QR.2)

/-- State of the `proj_grad_descent` loop in steepest_descent.py: the two
flags and the iteration counter. -/
structure PGDState where
  converged : Bool
  timed_out : Bool
  n_iter : ℕ
  deriving DecidableEq, Repr

/-- Loop-flag initialization in `proj_grad_descent`:
`converged = False; timed_out = False; n_iter = 0`. -/
def proj_grad_descent_init : PGDState :=
  ⟨false, false, 0⟩

/-- One pass of the `while (not converged) and (not timed_out)` body of
`proj_grad_descent`, as written in the source: the body computes
`old_M = M` and `free_grad = obj_grad(M)`, increments `n_iter`, and then
runs `if np.mean((new_M - old_M)**2) < thresh: converged = True`
(the preceding line `if n_iter >= max_iter:` has an empty suite, so no
statement of the body ever assigns `timed_out`). The convergence test
compares the undefined names `new_M` and `thresh`, so it is abstracted as
the parameter `conv_test`. -/
def proj_grad_descent_step (conv_test : PGDState → Bool) (s : PGDState) : PGDState :=
  { converged := s.converged || conv_test s
    timed_out := s.timed_out
    n_iter := s.n_iter + 1 }

/-- The local `skew_XTU = 0.5 * (np.dot(X.T, U) - np.dot(U.T, X))` of
`StiefelManifold.proj`, in exact real matrix arithmetic. -/
noncomputable def skew_XTU {n p : ℕ} (X U : Matrix (Fin n) (Fin p) ℝ) : Matrix (Fin p) (Fin p) ℝ :=
  (1/2 : ℝ) • (Xᵀ * U - Uᵀ * X)

/-- `StiefelManifold.proj`:
`skew_XTU = 0.5*(np.dot(X.T,U) - np.dot(U.T,X)); XXT = np.dot(X, X.T);`
`I = np.eye(len(XXT)); return np.dot(X, skew_XTU) + np.dot(I - XXT, U)`,
in exact real matrix arithmetic (all the `np.dot` calls are shape-correct
for (n,p) inputs, so the typed translation is exact). -/
noncomputable def StiefelManifold.proj {n p : ℕ} (X U : Matrix (Fin n) (Fin p) ℝ) :
    Matrix (Fin n) (Fin p) ℝ :=
  X * skew_XTU X U + (1 - X * Xᵀ) * U

lemma skew_XTU_transpose {n p : ℕ} (X U : Matrix (Fin n) (Fin p) ℝ) :
    (skew_XTU X U)ᵀ = - skew_XTU X U := by
  simp only [skew_XTU, Matrix.transpose_smul, Matrix.transpose_sub, Matrix.transpose_mul,
    Matrix.transpose_transpose, smul_sub, neg_sub]

lemma XT_mul_one_sub_XXT {n p : ℕ} (X : Matrix (Fin n) (Fin p) ℝ) (h : Xᵀ * X = 1) :
    Xᵀ * ((1 : Matrix (Fin n) (Fin n) ℝ) - X * Xᵀ) = 0 := by
  rw [Matrix.mul_sub, Matrix.mul_one, ← Matrix.mul_assoc, h, Matrix.one_mul, sub_self]

lemma XT_mul_proj {n p : ℕ} (X U : Matrix (Fin n) (Fin p) ℝ) (h : Xᵀ * X = 1) :
    Xᵀ * StiefelManifold.proj X U = skew_XTU X U := by
  unfold StiefelManifold.proj
  rw [Matrix.mul_add, ← Matrix.mul_assoc, h, Matrix.one_mul, ← Matrix.mul_assoc,
    XT_mul_one_sub_XXT X h, Matrix.zero_mul, add_zero]

lemma one_sub_XXT_mul_X {n p : ℕ} (X : Matrix (Fin n) (Fin p) ℝ) (h : Xᵀ * X = 1) :
    ((1 : Matrix (Fin n) (Fin n) ℝ) - X * Xᵀ) * X = 0 := by
  rw [Matrix.sub_mul, Matrix.one_mul, Matrix.mul_assoc, h, Matrix.mul_one, sub_self]

lemma one_sub_XXT_idem {n p : ℕ} (X : Matrix (Fin n) (Fin p) ℝ) (h : Xᵀ * X = 1) :
    ((1 : Matrix (Fin n) (Fin n) ℝ) - X * Xᵀ) * ((1 : Matrix (Fin n) (Fin n) ℝ) - X * Xᵀ)
      = (1 : Matrix (Fin n) (Fin n) ℝ) - X * Xᵀ := by
  have hA : (X * Xᵀ) * (X * Xᵀ) = X * Xᵀ := by
    rw [Matrix.mul_assoc, ← Matrix.mul_assoc Xᵀ X Xᵀ, h, Matrix.one_mul]
  rw [Matrix.mul_sub, Matrix.mul_one, Matrix.sub_mul, Matrix.one_mul, hA, sub_self, sub_zero]

/-- C2. For every X with Xᵀ·X = I and every ambient U, the projected
direction T = proj(X, U) satisfies Xᵀ·T + Tᵀ·X = 0 (Xᵀ·T is
skew-symmetric), exactly, in exact real arithmetic. -/
theorem c2_proj_tangent_skew {n p : ℕ} (X U : Matrix (Fin n) (Fin p) ℝ)
    (h : Xᵀ * X = 1) :
    Xᵀ * StiefelManifold.proj X U + (StiefelManifold.proj X U)ᵀ * X = 0 := by
  have hT : (StiefelManifold.proj X U)ᵀ * X = (Xᵀ * StiefelManifold.proj X U)ᵀ := by
    rw [Matrix.transpose_mul, Matrix.transpose_transpose]
  rw [hT, XT_mul_proj X U h, skew_XTU_transpose, add_neg_cancel]

/-- C2 witness at n = p = 1, X = [[1]], U = [[2]]. -/
theorem c2_proj_tangent_skew_witness :
    ((1 : Matrix (Fin 1) (Fin 1) ℝ)ᵀ * (1 : Matrix (Fin 1) (Fin 1) ℝ) = 1) ∧
      (1 : Matrix (Fin 1) (Fin 1) ℝ)ᵀ *
          StiefelManifold.proj (1 : Matrix (Fin 1) (Fin 1) ℝ) !![2] +
        (StiefelManifold.proj (1 : Matrix (Fin 1) (Fin 1) ℝ) !![2])ᵀ *
          (1 : Matrix (Fin 1) (Fin 1) ℝ) = 0 :=
  ⟨by simp, c2_proj_tangent_skew 1 !![2] (by simp)⟩

/-- C10. The tangent projection is idempotent: for X with Xᵀ·X = I exactly
and any U, proj(X, proj(X, U)) = proj(X, U) in exact real arithmetic. -/
theorem c10_proj_idempotent {n p : ℕ} (X U : Matrix (Fin n) (Fin p) ℝ)
    (h : Xᵀ * X = 1) :
    StiefelManifold.proj X (StiefelManifold.proj X U) = StiefelManifold.proj X U := by
  set T := StiefelManifold.proj X U with hTdef
  have hXT : Xᵀ * T = skew_XTU X U := XT_mul_proj X U h
  have hTX : Tᵀ * X = - skew_XTU X U := by
    rw [show Tᵀ * X = (Xᵀ * T)ᵀ by rw [Matrix.transpose_mul, Matrix.transpose_transpose],
      hXT, skew_XTU_transpose]
  have hskewT : skew_XTU X T = skew_XTU X U := by
    rw [skew_XTU, hXT, hTX, sub_neg_eq_add, smul_add, skew_XTU, smul_sub]
    rw [← add_smul]
    norm_num
  have hperp : ((1 : Matrix (Fin n) (Fin n) ℝ) - X * Xᵀ) * T
      = ((1 : Matrix (Fin n) (Fin n) ℝ) - X * Xᵀ) * U := by
    rw [hTdef]
    unfold StiefelManifold.proj
    rw [Matrix.mul_add, ← Matrix.mul_assoc, one_sub_XXT_mul_X X h, Matrix.zero_mul, zero_add,
      ← Matrix.mul_assoc, one_sub_XXT_idem X h]
  calc StiefelManifold.proj X T
      = X * skew_XTU X T + (1 - X * Xᵀ) * T := rfl
    _ = X * skew_XTU X U + (1 - X * Xᵀ) * U := by rw [hskewT, hperp]
    _ = T := rfl

/-- C10 witness at n = p = 1, X = [[1]], U = [[3]]. -/
theorem c10_proj_idempotent_witness :
    ((1 : Matrix (Fin 1) (Fin 1) ℝ)ᵀ * (1 : Matrix (Fin 1) (Fin 1) ℝ) = 1) ∧
      StiefelManifold.proj (1 : Matrix (Fin 1) (Fin 1) ℝ)
          (StiefelManifold.proj (1 : Matrix (Fin 1) (Fin 1) ℝ) !![3]) =
        StiefelManifold.proj (1 : Matrix (Fin 1) (Fin 1) ℝ) !![3] :=
  ⟨by simp, c10_proj_idempotent 1 !![3] (by simp)⟩

/-- The identity-padded orthonormal 4×2 matrix [[1,0],[0,1],[0,0],[0,0]]
from the spec's concrete scenarios. -/
def X42 : NPArray := ⟨4, 2, fun i j => if i = j then 1 else 0⟩

/-- A 4×2 zero direction matrix. -/
def U42zero : NPArray := ⟨4, 2, fun _ _ => 0⟩

/-- A 4×2 all-ones direction matrix. -/
def U42one : NPArray := ⟨4, 2, fun _ _ => 1⟩

/-- A stand-in for `np.linalg.qr` with the correct reduced-mode output
shapes, used to instantiate the shape hypotheses of the retraction
theorems. -/
def qr_stub : NPArray → NPArray × NPArray := fun Y =>
  (⟨Y.rows, min Y.rows Y.cols, fun _ _ => 0⟩, ⟨min Y.rows Y.cols, Y.cols, fun _ _ => 0⟩)

/-- A stand-in for `npr.randn` that always succeeds, used to show the
Grassmann `random_vec` failure is independent of the sampler. -/
def randn_stub : PyVal → Except PyErr NPArray := fun _ => .ok ⟨1, 1, fun _ _ => 0⟩

lemma np_mul_elemwise_4x2_2x2 (A B : NPArray) (h1 : A.rows = 4) (h2 : A.cols = 2)
    (h3 : B.rows = 2) (h4 : B.cols = 2) :
    np_mul_elemwise A B = .error .valueError := by
  unfold np_mul_elemwise np_binop
  rw [h1, h2, h3, h4]
  simp [bcast]

/-- C1. The claim fails on the code: for the on-manifold point X42 and the
zero direction at t = 1, `retraction` raises ValueError instead of
returning a point, because the final `Q * np.diag(...)` is ndarray
ELEMENTWISE multiplication and the shapes (4,2) and (2,2) do not
broadcast. This holds for every QR routine with numpy's reduced-mode
output shapes. -/
theorem c1_retraction_broadcast_valueerror
    (qr : NPArray → NPArray × NPArray)
    (hqr : ∀ Y : NPArray, (qr Y).1.rows = Y.rows ∧ (qr Y).1.cols = min Y.rows Y.cols ∧
      (qr Y).2.rows = min Y.rows Y.cols ∧ (qr Y).2.cols = Y.cols) :
    StiefelManifold.retraction qr X42 U42zero 1 = .error .valueError := by
  have hY : np_add X42 (np_scalar_mul 1 U42zero)
      = Except.ok (⟨4, 2, fun i j => X42.entry i j + 1 * U42zero.entry i j⟩ : NPArray) := rfl
  unfold StiefelManifold.retraction
  rw [hY]
  refine np_mul_elemwise_4x2_2x2 _ _ ((hqr _).1) ((hqr _).2.1) ?_ ?_
  · simp [sign_fix_diag, (hqr _).2.2.1, (hqr _).2.2.2]
  · simp [sign_fix_diag, (hqr _).2.2.1, (hqr _).2.2.2]

/-- C1 witness: the shape hypothesis is satisfied by a concrete QR
stand-in with numpy's reduced-mode shapes. -/
theorem c1_retraction_broadcast_valueerror_witness :
    StiefelManifold.retraction qr_stub X42 U42zero 1 = .error .valueError :=
  c1_retraction_broadcast_valueerror qr_stub (fun _ => ⟨rfl, rfl, rfl, rfl⟩)

/-- C3. The claim fails on the code: even at t = 0.0 (where Y = X exactly),
`retraction` raises ValueError from the same elementwise
`Q * np.diag(...)` broadcast of shapes (4,2) and (2,2), instead of
returning X. -/
theorem c3_retraction_at_zero_valueerror
    (qr : NPArray → NPArray × NPArray)
    (hqr : ∀ Y : NPArray, (qr Y).1.rows = Y.rows ∧ (qr Y).1.cols = min Y.rows Y.cols ∧
      (qr Y).2.rows = min Y.rows Y.cols ∧ (qr Y).2.cols = Y.cols) :
    StiefelManifold.retraction qr X42 U42one 0 = .error .valueError := by
  have hY : np_add X42 (np_scalar_mul 0 U42one)
      = Except.ok (⟨4, 2, fun i j => X42.entry i j + 0 * U42one.entry i j⟩ : NPArray) := rfl
  unfold StiefelManifold.retraction
  rw [hY]
  refine np_mul_elemwise_4x2_2x2 _ _ ((hqr _).1) ((hqr _).2.1) ?_ ?_
  · simp [sign_fix_diag, (hqr _).2.2.1, (hqr _).2.2.2]
  · simp [sign_fix_diag, (hqr _).2.2.1, (hqr _).2.2.2]

/-- C3 witness: the shape hypothesis is satisfied by a concrete QR
stand-in with numpy's reduced-mode shapes. -/
theorem c3_retraction_at_zero_valueerror_witness :
    StiefelManifold.retraction qr_stub X42 U42one 0 = .error .valueError :=
  c3_retraction_at_zero_valueerror qr_stub (fun _ => ⟨rfl, rfl, rfl, rfl⟩)

/-- C4. The claim fails on the code: the loop body of `proj_grad_descent`
never assigns `timed_out` (the `if n_iter >= max_iter:` suite is empty),
so after any number of iterations, for any convergence test, the
`timed_out` flag is still False and no TIMED_OUT status can ever be
produced (the function body, moreover, returns nothing). -/
theorem c4_timed_out_flag_never_set (conv_test : PGDState → Bool) (k : ℕ) :
    ((proj_grad_descent_step conv_test)^[k] proj_grad_descent_init).timed_out = false := by
  induction k with
  | zero => rfl
  | succ k ih =>
      rw [Function.iterate_succ_apply']
      simpa [proj_grad_descent_step] using ih

/-- C5. The claim fails on the code: on the spec's concrete scenario
(n = 4, p = 2, X the identity-padded orthonormal 4×2 matrix) the shape
test passes and `np.eye(p)` is then evaluated with `p` an undefined name,
so `point_on_manifold` raises NameError instead of returning True. -/
theorem c5_point_on_manifold_nameerror :
    StiefelManifold.point_on_manifold 4 2 X42 = .error .nameError := by
  rfl

/-- C6. The sign canonicalization of the retraction: for every diagonal
entry r of the QR factor R, `sign(sign(r) + 0.5)` is +1 when r = 0 and
equals `sign(r)` otherwise. -/
theorem c6_sign_canonicalization (r : ℚ) :
    sign (sign r + 1/2) = if r = 0 then 1 else sign r := by
  rcases lt_trichotomy r 0 with h | h | h
  · have h1 : sign r = -1 := by unfold sign; rw [if_neg (not_lt.mpr h.le), if_pos h]
    rw [h1, if_neg (ne_of_lt h)]
    unfold sign
    norm_num
  · subst h
    have h1 : sign (0 : ℚ) = 0 := by unfold sign; norm_num
    rw [h1, if_pos rfl]
    unfold sign
    norm_num
  · have h1 : sign r = 1 := by unfold sign; rw [if_pos h]
    rw [h1, if_neg (ne_of_gt h)]
    unfold sign
    norm_num

/-- C7. The claim fails on the code: `norm` reads the nonexistent
attribute `np.norm` and raises AttributeError (never computing
√(inner(d,d))), and `inner` is `np.dot`, 2-D matrix multiplication, which
on two 4×2 tangent vectors raises ValueError (misaligned shapes) rather
than returning the flattened scalar dot product. -/
theorem c7_norm_and_inner_errors :
    StiefelManifold.norm X42 = .error .attributeError ∧
      StiefelManifold.inner X42 X42 = .error .valueError := by
  exact ⟨rfl, rfl⟩

/-- C8. The constructor's derived quantities: dim(5,2) = 7; dim is the
formula n·p − ½·p·(p+1) for every n, p with no validation (p > n is
accepted and yields a negative dimension, e.g. dim(1,2) = −1); and
typical_distance p is the nonnegative square root of p. -/
theorem c8_dim_and_typical_distance :
    StiefelManifold.dim 5 2 = 7 ∧
      StiefelManifold.dim 1 2 = -1 ∧
      (∀ n p : ℕ, 2 * StiefelManifold.dim n p = 2 * (n * p) - p * (p + 1)) ∧
      (∀ p : ℕ, 0 ≤ StiefelManifold.typical_distance p ∧
        StiefelManifold.typical_distance p ^ 2 = p) := by
  refine ⟨by norm_num [StiefelManifold.dim], by norm_num [StiefelManifold.dim], ?_, ?_⟩
  · intro n p
    unfold StiefelManifold.dim
    ring
  · intro p
    exact ⟨Real.sqrt_nonneg _, Real.sq_sqrt (by positivity)⟩

/-- C9 counterexample. The claim, as stated, is false: `random_vec` on the
Grassmann placeholder does not raise NotImplementedError — it raises
AttributeError, because `self.dim` is read (and is unset) before
`self.proj` is ever called. -/
theorem c9_grassmann_random_vec_counterexample :
    GrassmannManifold.random_vec randn_stub = Except.error PyErr.attributeError ∧
      GrassmannManifold.random_vec randn_stub ≠ Except.error PyErr.notImplementedError := by
  refine ⟨rfl, fun h => ?_⟩
  rw [show GrassmannManifold.random_vec randn_stub = Except.error PyErr.attributeError
    from rfl] at h
  exact absurd (Except.error.inj h) (by decide)

/-- C9 amended. `proj` and `point_on_manifold` raise NotImplementedError
on the abstract base class and (by inheritance) on the Grassmann
placeholder, but `random_vec` on the Grassmann placeholder raises
AttributeError (its initializer never sets `dim`), whatever the sampler
does. -/
theorem c9_abstract_interface_errors :
    (∀ X : NPArray, Manifold.proj X = .error .notImplementedError) ∧
      (∀ X : NPArray, Manifold.point_on_manifold X = .error .notImplementedError) ∧
      (∀ X : NPArray, GrassmannManifold.proj X = .error .notImplementedError) ∧
      (∀ X : NPArray, GrassmannManifold.point_on_manifold X = .error .notImplementedError) ∧
      (∀ randn : PyVal → Except PyErr NPArray,
        GrassmannManifold.random_vec randn = .error .attributeError) :=
  ⟨fun _ => rfl, fun _ => rfl, fun _ => rfl, fun _ => rfl, fun _ => rfl⟩
